import Mathlib

/-
  Verification development for the news-driven trading engine
  (backend/main.py, backend/graph/trading_graph.py, backend/agents/*,
  backend/utils/locks.py, backend/database/client.py).

  Shallow embedding conventions:
  * Every call to an external collaborator (reasoning oracle, broker,
    market-data feed) is modelled by an environment field of type
    Except String T: `.error e` means the Python call raised (or its JSON
    output failed to parse), `.ok v` is the parsed result.
  * Prompt assembly (the dict "context" objects passed to the oracle) only
    feeds the oracle input, whose output is environment-supplied, so the
    text of the prompts is not reproduced here; the control flow around the
    calls is.
  * Ledger writes (Postgres inserts and updates) are modelled as pure
    updates of a DB record; row ids are assigned as list length + 1,
    mirroring serial primary keys.  Ledger writes are modelled as
    succeeding; the claims under study concern oracle and broker failures.
  * Machine floats (prices) are modelled as rationals: the code only
    compares and multiplies them, never relies on rounding.
  * Wall-clock time is reduced to a day counter `today : Nat`; the
    executed_at timestamp of a trade is the day it was saved, and
    has_traded_today compares day stamps, mirroring the
    executed_at >= today_start query.
-/

/-! Data model (backend/database/models.py, backend/database/client.py) -/

/-- One row of the trade_proposals table. -/
structure TradeProposal where
  id : Nat
  ticker : String
  action : String
  quantity : Nat
  proposedPrice : Option ℚ
  reasoning : String
  confidenceScore : Option Int
  analysisEventId : Option Nat
  debateId : Option Nat
  status : String
  deriving DecidableEq, Repr

/-- One row of the executed_trades table.  executedAt is the day stamp
assigned by the database at insert time. -/
structure ExecutedTrade where
  id : Nat
  tradeProposalId : Nat
  ticker : String
  action : String
  quantity : Nat
  executionPrice : ℚ
  alpacaOrderId : String
  reasoning : Option String
  status : String
  executedAt : Nat
  deriving DecidableEq, Repr

/-- One row of the analysis_events table.  The input_data and output_data
JSON payloads only echo the oracle exchange and are omitted. -/
structure AnalysisEvent where
  ticker : String
  event_type : String
  reasoning : String
  agent_name : String
  deriving DecidableEq, Repr

/-- One row of the debates table. -/
structure Debate where
  id : Nat
  ticker : String
  debate_type : String
  bull_argument : String
  bear_argument : String
  final_consensus : String
  trader_agent_id : Nat
  deriving DecidableEq, Repr

/-- A submit_order call made to the broker (symbol, quantity, side).
Recorded as a trace so that theorems can state that no order was sent. -/
structure BrokerCall where
  symbol : String
  qty : Nat
  side : String
  deriving DecidableEq, Repr

/-- The persisted state (the Ledger) plus the trace of broker calls. -/
structure DB where
  snapshots : List (String × ℚ)
  analysisEvents : List AnalysisEvent
  debates : List Debate
  trade_proposals : List TradeProposal
  executedTrades : List ExecutedTrade
  brokerCalls : List BrokerCall
  deriving DecidableEq, Repr

def DB.empty : DB :=
  { snapshots := [], analysisEvents := [], debates := [],
    trade_proposals := [], executedTrades := [], brokerCalls := [] }

/-- DatabaseClient.get_latest_snapshot: most recent price for a ticker
(snapshots are consed, so the head match is the latest). -/
def get_latest_snapshot (db : DB) (ticker : String) : Option ℚ :=
  (db.snapshots.find? (fun s => s.1 = ticker)).map (·.2)

/-- DatabaseClient.save_stock_snapshot. -/
def save_stock_snapshot (db : DB) (ticker : String) (price : ℚ) : DB :=
  { db with snapshots := (ticker, price) :: db.snapshots }

/-- DatabaseClient.save_analysis_event, returning the new row id. -/
def save_analysis_event (db : DB) (e : AnalysisEvent) : Nat × DB :=
  (db.analysisEvents.length + 1, { db with analysisEvents := db.analysisEvents ++ [e] })

/-- DatabaseClient.save_debate, returning the new row id. -/
def save_debate (db : DB) (d : Debate) : Nat × DB :=
  let did := db.debates.length + 1
  (did, { db with debates := db.debates ++ [{ d with id := did }] })

/-- DatabaseClient.save_trade_proposal, returning the new row id. -/
def save_trade_proposal (db : DB) (p : TradeProposal) : Nat × DB :=
  let pid := db.trade_proposals.length + 1
  (pid, { db with trade_proposals := db.trade_proposals ++ [{ p with id := pid }] })

/-- DatabaseClient.update_proposal_status:
UPDATE trade_proposals SET status WHERE id. -/
def update_proposal_status (db : DB) (pid : Nat) (status : String) : DB :=
  { db with trade_proposals :=
      db.trade_proposals.map (fun p => if p.id = pid then { p with status } else p) }

/-- Status of the proposal row with the given id, if present. -/
def statusOf (db : DB) (pid : Nat) : Option String :=
  (db.trade_proposals.find? (fun p => p.id = pid)).map (·.status)

/-- DatabaseClient.save_executed_trade, stamping the current day and
returning the new row id. -/
def save_executed_trade (db : DB) (t : ExecutedTrade) (today : Nat) : Nat × DB :=
  let tid := db.executedTrades.length + 1
  (tid, { db with executedTrades := db.executedTrades ++ [{ t with id := tid, executedAt := today }] })

/-- DatabaseClient.has_traded_today: COUNT of executed_trades with
executed_at >= start of the current day, compared with 0. -/
def has_traded_today (db : DB) (today : Nat) : Bool :=
  db.executedTrades.any (fun t => t.executedAt = today)

/-! ScreeningStage (backend/agents/trader_agent.py, TraderAgent.analyze_ticker) -/

/-- The parsed JSON emitted by the screening oracle
(dict access via .get, hence optional fields). -/
structure ScreenOut where
  is_interesting : Option Bool
  reasoning : Option String
  confidence : Option Int
  deriving DecidableEq, Repr

/-- External outcomes for one analyze_ticker call:
fetchSnapshot is finnhub.get_stock_snapshot (used when no snapshot is
stored), oracle is llm.chat_completion composed with json.loads. -/
structure ScreenEnv where
  fetchSnapshot : Except String ℚ
  oracle : Except String ScreenOut
  deriving Repr

/-- The dict returned by analyze_ticker: event_id plus the analysis dict
(degraded to is_interesting false with the error text on failure). -/
structure AnalyzeResult where
  event_id : Option Nat
  analysis : ScreenOut
  ticker : String
  deriving DecidableEq, Repr

/-- TraderAgent.analyze_ticker.  The try block reads the latest snapshot
(fetching and saving one if absent), calls the oracle and persists an
AnalysisEvent; the except block returns a degraded result with
is_interesting false and the error text, without touching the ledger. -/
def analyze_ticker (env : ScreenEnv) (ticker : String) (db : DB) : AnalyzeResult × DB :=
  let snapStep : Except String DB :=
    match get_latest_snapshot db ticker with
    | some _ => .ok db
    | none =>
        match env.fetchSnapshot with
        | .error e => .error e
        | .ok price => .ok (save_stock_snapshot db ticker price)
  match snapStep with
  | .error e =>
      ({ event_id := none,
         analysis := { is_interesting := some false,
                       reasoning := some ("Error: " ++ e), confidence := none },
         ticker }, db)
  | .ok db1 =>
      match env.oracle with
      | .error e =>
          ({ event_id := none,
             analysis := { is_interesting := some false,
                           reasoning := some ("Error: " ++ e), confidence := none },
             ticker }, db1)
      | .ok analysis =>
          let event : AnalysisEvent :=
            { ticker, event_type := "ticker_analysis",
              reasoning := analysis.reasoning.getD "",
              agent_name := "trader_agent" }
          let saved := save_analysis_event db1 event
          ({ event_id := some saved.1, analysis, ticker }, saved.2)

/-! DebateStage (backend/agents/debate_agents.py, DebateOrchestrator.conduct_debate) -/

/-- External outcomes for one conduct_debate call: the bull argument, the
bear argument and the consensus oracle calls (each may raise). -/
structure DebateEnv where
  bull : Except String String
  bear : Except String String
  consensus : Except String String
  deriving Repr

/-- DebateOrchestrator.conduct_debate.  All three oracle calls run inside
one try block whose except clause re-raises, so a failure of any of the
three leaves the ledger untouched and surfaces the error; only full
success persists the transcript. -/
def conduct_debate (env : DebateEnv) (ticker : String) (trader_event_id : Nat)
    (db : DB) : Except String Debate × DB :=
  match env.bull with
  | .error e => (.error e, db)
  | .ok bull_argument =>
      match env.bear with
      | .error e => (.error e, db)
      | .ok bear_argument =>
          match env.consensus with
          | .error e => (.error e, db)
          | .ok final_consensus =>
              let d : Debate :=
                { id := 0, ticker, debate_type := "bull_vs_bear",
                  bull_argument, bear_argument, final_consensus,
                  trader_agent_id := trader_event_id }
              let saved := save_debate db d
              (.ok { d with id := saved.1 }, saved.2)

/-! ProposalStage (backend/graph/trading_graph.py, TradingGraph._create_proposal_from_debate) -/

/-- The parsed JSON emitted by the proposal oracle. -/
structure ProposalOracleOut where
  action : Option String
  quantity : Option Nat
  reasoning : Option String
  confidence_score : Option Int
  deriving DecidableEq, Repr

/-- The proposal_data dict after defaulting of missing keys and the
confidence-floor override. -/
structure ProposalData where
  action : String
  quantity : Nat
  reasoning : String
  confidence_score : Int
  deriving DecidableEq, Repr

/-- The note appended to the reasoning field when the floor fires in
_create_proposal_from_debate. -/
def rejectNoteTrading (c : Int) : String :=
  " [Rejected: Confidence " ++ toString c ++ " < 70 required for trading]"

/-- The hard confidence floor of _create_proposal_from_debate: if the
oracle proposed BUY or SELL with confidence below 70, force HOLD with
quantity 0 and append the rejection note to the reasoning. -/
def applyConfidenceFloor (out : ProposalOracleOut) : ProposalData :=
  let confidence_score := out.confidence_score.getD 0
  let action := out.action.getD "HOLD"
  if (action = "BUY" ∨ action = "SELL") ∧ confidence_score < 70 then
    { action := "HOLD", quantity := 0,
      reasoning := out.reasoning.getD "" ++ rejectNoteTrading confidence_score,
      confidence_score }
  else
    { action, quantity := out.quantity.getD 0,
      reasoning := out.reasoning.getD "", confidence_score }

/-- The TradeProposal record built by _create_proposal_from_debate from
the (post-floor) proposal_data, before insertion assigns the row id. -/
def buildProposal (ticker : String) (data : ProposalData) (price : Option ℚ)
    (event_id : Nat) (debate_id : Option Nat) : TradeProposal :=
  { id := 0, ticker, action := data.action,
    quantity := if data.action ≠ "HOLD" then data.quantity else 0,
    proposedPrice := price, reasoning := data.reasoning,
    confidenceScore := some data.confidence_score,
    analysisEventId := some event_id, debateId := debate_id,
    status := "PENDING" }

/-! RiskGateStage (backend/agents/portfolio_manager_agent.py, PortfolioManagerAgent.review_proposal) -/

/-- Broker account state; only buying_power is consulted by the control
flow (the other fields feed the oracle prompt). -/
structure Account where
  buying_power : ℚ
  deriving DecidableEq, Repr

/-- A broker position; only the symbol is consulted by the control flow. -/
structure Position where
  symbol : String
  qty : Nat
  current_price : ℚ
  deriving DecidableEq, Repr

/-- The decision dict returned by review_proposal (parsed oracle JSON,
possibly mutated by the confidence override, or the synthetic REJECT dict
built in the except branch). -/
structure Decision where
  decision : Option String
  reasoning : Option String
  adjusted_quantity : Option Nat
  position_to_sell : Option String
  sell_quantity : Option Nat
  deriving DecidableEq, Repr

/-- External outcomes for one review_proposal call.  account and positions
are the broker fetches, recentTrades is the ledger read of the last seven
days of trades (its content only feeds the prompt), oracle is
llm.chat_completion composed with json.loads. -/
structure ReviewEnv where
  account : Except String Account
  positions : Except String (List Position)
  recentTrades : Except String Unit
  oracle : Except String Decision
  deriving Repr

/-- The synthetic decision built in the except branch of review_proposal. -/
def reviewFailure (e : String) : Decision :=
  { decision := some "REJECT", reasoning := some ("Review failed: " ++ e),
    adjusted_quantity := none, position_to_sell := none, sell_quantity := none }

/-- The note appended to the reasoning field when the floor fires at the
risk gate. -/
def rejectNoteReview (c : Int) : String :=
  " [Rejected: Confidence " ++ toString c ++ " < 70 required]"

/-- PortfolioManagerAgent.review_proposal.  Every internal step runs in
one try block; any raise is answered with the synthetic REJECT decision.
After a successful oracle call the confidence floor is re-asserted: a
proposal with confidence below 70 that the oracle approved is forced to
REJECT with an appended note.  The needs_buying_power and required_cash
computation only feeds the oracle prompt and is omitted. -/
def review_proposal (env : ReviewEnv) (p : TradeProposal) : Decision :=
  match env.account with
  | .error e => reviewFailure e
  | .ok _ =>
      match env.positions with
      | .error e => reviewFailure e
      | .ok _ =>
          match env.recentTrades with
          | .error e => reviewFailure e
          | .ok _ =>
              match env.oracle with
              | .error e => reviewFailure e
              | .ok decision =>
                  let confidence_score := p.confidenceScore.getD 0
                  if confidence_score < 70 ∧ decision.decision = some "APPROVE" then
                    { decision with
                        decision := some "REJECT",
                        reasoning := some (decision.reasoning.getD "" ++
                          rejectNoteReview confidence_score) }
                  else decision

/-! ExecutionStage (backend/agents/portfolio_manager_agent.py, PortfolioManagerAgent.execute_trade) -/

/-- The dict returned by alpaca.submit_order; only id and price are read. -/
structure OrderResult where
  id : String
  price : ℚ
  deriving DecidableEq, Repr

/-- The dict returned by _evaluate_position_to_sell when it recommends a
sale (None, covering decline and internal errors, is Option.none). -/
structure RebalanceRec where
  ticker : String
  quantity : Nat
  reasoning : String
  deriving DecidableEq, Repr

/-- External outcomes for one execute_trade call: the live account and
position fetches, the outcome of the narrow rebalancing confirmation
(_evaluate_position_to_sell catches its own exceptions and returns None
on decline or error), and the two broker submissions. -/
structure ExecEnv where
  account : Except String Account
  positions : Except String (List Position)
  rebalanceEval : Option RebalanceRec
  sellOrder : Except String OrderResult
  mainOrder : Except String OrderResult
  deriving Repr

/-- Python truthiness of decision.get("position_to_sell"). -/
def truthyStr : Option String → Bool
  | none => false
  | some s => !s.isEmpty

/-- Python truthiness of decision.get("sell_quantity"). -/
def truthyNat : Option Nat → Bool
  | none => false
  | some n => n != 0

/-- Price resolution in execute_trade: proposed_price if truthy, else the
latest snapshot price, else 0. -/
def execResolvePrice (p : TradeProposal) (db : DB) : ℚ :=
  let price : ℚ :=
    match p.proposedPrice with
    | some pr => if pr = 0 then 0 else pr
    | none => 0
  if price = 0 then
    match get_latest_snapshot db p.ticker with
    | some pr => pr
    | none => 0
  else price

/-- The tail of execute_trade from "Execute the main trade" on: submit the
primary market order (adjusted_quantity overriding the proposal quantity
when present), persist the ExecutedTrade, mark the proposal EXECUTED; a
submission raise is answered by the except branch, which marks the
proposal REJECTED and returns None. -/
def executeMainTrade (env : ExecEnv) (p : TradeProposal) (d : Decision)
    (db : DB) (today : Nat) : Option ExecutedTrade × DB :=
  let quantity := d.adjusted_quantity.getD p.quantity
  let db1 := { db with brokerCalls :=
      db.brokerCalls ++ [{ symbol := p.ticker, qty := quantity, side := p.action }] }
  match env.mainOrder with
  | .error _ => (none, update_proposal_status db1 p.id "REJECTED")
  | .ok order =>
      let proposedTruthy : Bool :=
        match p.proposedPrice with
        | some pr => pr != 0
        | none => false
      let execution_price :=
        if order.price = 0 ∧ proposedTruthy then p.proposedPrice.getD 0
        else order.price
      let trade : ExecutedTrade :=
        { id := 0, tradeProposalId := p.id, ticker := p.ticker,
          action := p.action, quantity, executionPrice := execution_price,
          alpacaOrderId := order.id, reasoning := d.reasoning,
          status := "FILLED", executedAt := today }
      let saved := save_executed_trade db1 trade today
      (some { trade with id := saved.1 },
        update_proposal_status saved.2 p.id "EXECUTED")

/-- The funding SELL submission (alpaca.submit_order with side SELL for
the flagged position), recorded on the broker-call trace. -/
def submitSellCall (db : DB) (d : Decision) : DB :=
  { db with brokerCalls := db.brokerCalls ++
      [{ symbol := d.position_to_sell.getD "", qty := d.sell_quantity.getD 0,
         side := "SELL" }] }

/-- PortfolioManagerAgent.execute_trade.  A non-APPROVE decision marks the
proposal REJECTED and returns None.  For an approved BUY flagged with a
position_to_sell, the live buying power is re-checked; if still
insufficient, the flagged position must still exist and the narrow
rebalancing confirmation is re-run: agreement (or a silent decline,
modelled as None) submits the funding SELL first, while a different
recommended ticker rejects the proposal outright.  Any raise inside the
try block is answered by the except branch: proposal REJECTED, None
returned. -/
def execute_trade (env : ExecEnv) (p : TradeProposal) (d : Decision)
    (db : DB) (today : Nat) : Option ExecutedTrade × DB :=
  if d.decision ≠ some "APPROVE" then
    (none, update_proposal_status db p.id "REJECTED")
  else
    if truthyStr d.position_to_sell ∧ truthyNat d.sell_quantity ∧ p.action = "BUY" then
      match env.account with
      | .error _ => (none, update_proposal_status db p.id "REJECTED")
      | .ok account =>
          -- required_cash = resolved price times proposal quantity
          if execResolvePrice p db * (p.quantity : ℚ) > account.buying_power then
            match env.positions with
            | .error _ => (none, update_proposal_status db p.id "REJECTED")
            | .ok positions =>
                if !positions.any (fun pos => pos.symbol = d.position_to_sell.getD "") then
                  (none, update_proposal_status db p.id "REJECTED")
                else
                  match env.rebalanceEval with
                  | some rec =>
                      if rec.ticker = d.position_to_sell.getD "" then
                        match env.sellOrder with
                        | .error _ =>
                            (none, update_proposal_status (submitSellCall db d) p.id "REJECTED")
                        | .ok _ => executeMainTrade env p d (submitSellCall db d) today
                      else
                        (none, update_proposal_status db p.id "REJECTED")
                  | none =>
                      match env.sellOrder with
                      | .error _ =>
                          (none, update_proposal_status (submitSellCall db d) p.id "REJECTED")
                      | .ok _ => executeMainTrade env p d (submitSellCall db d) today
          else executeMainTrade env p d db today
    else executeMainTrade env p d db today

/-! WorkflowEngine state (backend/graph/trading_graph.py) -/

/-- The debate_result dict stored in the workflow state. -/
structure DebateResult where
  debate_id : Nat
  bull_argument : String
  bear_argument : String
  consensus : String
  deriving DecidableEq, Repr

/-- The TradingState TypedDict threaded through the LangGraph nodes. -/
structure TradingState where
  ticker : Option String
  analysisResult : Option AnalyzeResult
  needsDebate : Bool
  debateResult : Option DebateResult
  tradeProposal : Option TradeProposal
  portfolioDecision : Option Decision
  executedTrade : Option ExecutedTrade
  error : Option String
  deriving DecidableEq, Repr

/-- TradingGraph.run initial state for one ticker. -/
def initialState (tk : String) : TradingState :=
  { ticker := some tk, analysisResult := none, needsDebate := false,
    debateResult := none, tradeProposal := none, portfolioDecision := none,
    executedTrade := none, error := none }

/-- TradingGraph._analyze_ticker node. -/
def analyzeNode (env : ScreenEnv) (st : TradingState) (db : DB) : TradingState × DB :=
  match st.ticker with
  | none => ({ st with error := some "No ticker provided" }, db)
  | some tk =>
      if tk.isEmpty then ({ st with error := some "No ticker provided" }, db)
      else
        let r := analyze_ticker env tk db
        ({ st with analysisResult := some r.1,
                   needsDebate := r.1.analysis.is_interesting.getD false }, r.2)

/-- TradingGraph._should_debate conditional edge. -/
def shouldDebate (st : TradingState) : String :=
  if st.error.isSome then "skip"
  else
    let interesting :=
      match st.analysisResult with
      | none => false
      | some r => r.analysis.is_interesting.getD false
    if !interesting then "skip" else "debate"

/-- TradingGraph._conduct_debate node. -/
def conductDebateNode (env : DebateEnv) (st : TradingState) (db : DB) :
    TradingState × DB :=
  match st.analysisResult.bind (·.event_id) with
  | none => ({ st with error := some "No analysis event ID available" }, db)
  | some eid =>
      let r := conduct_debate env (st.ticker.getD "") eid db
      match r.1 with
      | .error e => ({ st with error := some e }, r.2)
      | .ok d =>
          if d.id = 0 then
            ({ st with error := some "Debate returned no result" }, r.2)
          else
            ({ st with debateResult := some (
                { debate_id := d.id, bull_argument := d.bull_argument,
                  bear_argument := d.bear_argument,
                  consensus := d.final_consensus } : DebateResult) }, r.2)

/-- TradingGraph._create_proposal_from_debate node.  Resolves the latest
snapshot (fetching and saving one if absent), calls the proposal oracle,
applies the confidence floor and persists the proposal with status
PENDING; any raise sets the state error without creating a proposal. -/
def createProposalNode (envFetch : Except String ℚ)
    (envOracle : Except String ProposalOracleOut)
    (st : TradingState) (db : DB) : TradingState × DB :=
  match st.analysisResult.bind (·.event_id) with
  | none => ({ st with error := some "No analysis event ID available" }, db)
  | some event_id =>
      match st.debateResult with
      | none => ({ st with error := some "No debate result available" }, db)
      | some dres =>
          let tk := st.ticker.getD ""
          let snapStep : Except String (Option ℚ × DB) :=
            match get_latest_snapshot db tk with
            | some pr => .ok (some pr, db)
            | none =>
                match envFetch with
                | .error e => .error ("Failed to fetch snapshot: " ++ e)
                | .ok price =>
                    let db1 := save_stock_snapshot db tk price
                    .ok (get_latest_snapshot db1 tk, db1)
          match snapStep with
          | .error e => ({ st with error := some e }, db)
          | .ok sd =>
              match envOracle with
              | .error e => ({ st with error := some e }, sd.2)
              | .ok out =>
                  let data := applyConfidenceFloor out
                  let prop := buildProposal tk data sd.1 event_id
                    (some dres.debate_id)
                  let saved := save_trade_proposal sd.2 prop
                  ({ st with tradeProposal := some { prop with id := saved.1 } },
                    saved.2)

/-- TradingGraph._review_proposal node. -/
def reviewNode (env : ReviewEnv) (st : TradingState) (db : DB) :
    TradingState × DB :=
  match st.tradeProposal with
  | none => ({ st with error := some "No proposal to review" }, db)
  | some p => ({ st with portfolioDecision := some (review_proposal env p) }, db)

/-- TradingGraph._should_execute conditional edge.  (With no decision in
the state the source raises and the caller catches, which is
observationally the reject edge: no execution happens.) -/
def shouldExecute (st : TradingState) : String :=
  if (st.portfolioDecision.bind (·.decision)) = some "APPROVE" then "execute"
  else "reject"

/-- TradingGraph._execute_trade node. -/
def executeNode (env : ExecEnv) (st : TradingState) (db : DB) (today : Nat) :
    TradingState × DB :=
  match st.tradeProposal, st.portfolioDecision with
  | some p, some d =>
      let r := execute_trade env p d db today
      match r.1 with
      | some t => ({ st with executedTrade := some t }, r.2)
      | none => (st, r.2)
  | _, _ => ({ st with error := some "Missing proposal or decision" }, db)

/-- External outcomes for one full per-ticker pipeline. -/
structure TickerEnv where
  screen : ScreenEnv
  debate : DebateEnv
  proposalFetch : Except String ℚ
  proposalOracle : Except String ProposalOracleOut
  review : ReviewEnv
  exec : ExecEnv
  deriving Repr

/-- The review → should_execute → execute tail of the graph. -/
def reviewAndExecute (renv : ReviewEnv) (eenv : ExecEnv) (st : TradingState)
    (db : DB) (today : Nat) : TradingState × DB :=
  let r := reviewNode renv st db
  if shouldExecute r.1 = "execute" then executeNode eenv r.1 r.2 today
  else r

/-- TradingGraph.run: the compiled graph for one ticker, following the
edges analyze → (should_debate) → debate → create_proposal → review →
(should_execute) → execute → END. -/
def graphRun (env : TickerEnv) (tk : String) (db : DB) (today : Nat) :
    TradingState × DB :=
  let r1 := analyzeNode env.screen (initialState tk) db
  if shouldDebate r1.1 = "skip" then r1
  else
    let r2 := conductDebateNode env.debate r1.1 r1.2
    let r3 := createProposalNode env.proposalFetch env.proposalOracle r2.1 r2.2
    reviewAndExecute env.review env.exec r3.1 r3.2 today

/-! TradingSystem (backend/main.py) -/

/-- External outcomes for one trigger of the control loop.  lockPolls
models the availability of the Postgres advisory lock over the polling
window (GlobalPromptLock); the trading loop in main.py never consults it,
which the theorems below make observable. -/
structure SystemEnv where
  tickers : List String
  marketOpen : Bool
  updateFetch : String → Except String ℚ
  tickerEnv : String → TickerEnv
  lockPolls : List Bool

/-- TradingSystem.update_stock_data: fetch and persist a snapshot per
ticker, swallowing per-ticker fetch failures. -/
def update_stock_data (env : SystemEnv) (db : DB) : DB :=
  env.tickers.foldl
    (fun db tk =>
      match env.updateFetch tk with
      | .ok price => save_stock_snapshot db tk price
      | .error _ => db)
    db

/-- TradingSystem.process_ticker: one graph run; failures are logged and
isolated, so the fold continues regardless of the outcome. -/
def process_ticker (env : SystemEnv) (tk : String) (db : DB) (today : Nat) : DB :=
  (graphRun (env.tickerEnv tk) tk db today).2

/-- TradingSystem.run_cycle: update all snapshots, then process every
configured ticker in order.  There is no per-ticker re-check of
has_traded_today inside the loop. -/
def run_cycle (env : SystemEnv) (db : DB) (today : Nat) : DB :=
  env.tickers.foldl (fun db tk => process_ticker env tk db today)
    (update_stock_data env db)

/-- TradingSystem.should_run_trading_cycle: market open and no trade yet
today.  No lock is acquired around this check in the source. -/
def should_run_trading_cycle (env : SystemEnv) (db : DB) (today : Nat) : Bool :=
  env.marketOpen && !(has_traded_today db today)

/-- One iteration of TradingSystem.run: gate, then cycle. -/
def runIteration (env : SystemEnv) (db : DB) (today : Nat) : DB :=
  if should_run_trading_cycle env db today then run_cycle env db today else db

/-! DistributedLock (backend/utils/locks.py, GlobalPromptLock) -/

/-- Result of pg_try_advisory_lock over the successive polling attempts
that fit in the timeout window; GlobalPromptLock._wait_for_lock returns
true at the first successful attempt and false once the window is
exhausted. -/
def waitForLock : List Bool → Bool
  | [] => false
  | t :: ts => t || waitForLock ts

/-- Outcome of a use of the GlobalPromptLock.acquire context manager. -/
inductive LockOutcome (α : Type) where
  | ok : α → LockOutcome α
  | bodyError : String → LockOutcome α
  | timeout : LockOutcome α
  | connectError : String → LockOutcome α
  deriving DecidableEq, Repr

/-- External outcomes for one acquire: the psycopg2.connect call, the
pg_try_advisory_lock polls, the protected block, and whether
pg_advisory_unlock succeeds. -/
structure AcquireEnv (α : Type) where
  connect : Except String Unit
  polls : List Bool
  body : Except String α
  releaseOk : Bool

/-- Observable effects of one use of GlobalPromptLock.acquire. -/
structure AcquireResult (α : Type) where
  outcome : LockOutcome α
  bodyRan : Bool
  unlockAttempted : Bool
  releaseWarnLogged : Bool
  cursorClosed : Bool
  connClosed : Bool
  deriving DecidableEq, Repr

/-- GlobalPromptLock.acquire.  Connect; poll for the advisory lock within
the timeout; on timeout raise TimeoutError without running the body; else
run the body; the finally block releases the lock when it was acquired
(logging, not raising, on release failure) and closes cursor and
connection whenever they were opened. -/
def acquireLock {α : Type} (env : AcquireEnv α) : AcquireResult α :=
  match env.connect with
  | .error e =>
      { outcome := .connectError e, bodyRan := false, unlockAttempted := false,
        releaseWarnLogged := false, cursorClosed := false, connClosed := false }
  | .ok _ =>
      if waitForLock env.polls then
        let outcome : LockOutcome α :=
          match env.body with
          | .ok a => .ok a
          | .error e => .bodyError e
        { outcome, bodyRan := true, unlockAttempted := true,
          releaseWarnLogged := !env.releaseOk, cursorClosed := true,
          connClosed := true }
      else
        { outcome := .timeout, bodyRan := false, unlockAttempted := false,
          releaseWarnLogged := false, cursorClosed := true, connClosed := true }

/-! Helper lemmas and concrete configurations -/

/-- Whether an Except value is a success. -/
def exceptOkB {α : Type} : Except String α → Bool
  | .ok _ => true
  | .error _ => false

/-- A fully successful per-ticker environment: interesting screening,
successful debate, BUY proposal at confidence 85, oracle approval without
rebalancing, and an acknowledged market order. -/
def happyTickerEnv : TickerEnv :=
  { screen := { fetchSnapshot := .ok 100,
                oracle := .ok { is_interesting := some true,
                                reasoning := some "strong news", confidence := some 80 } },
    debate := { bull := .ok "bull case", bear := .ok "bear case",
                consensus := .ok "balanced view" },
    proposalFetch := .ok 100,
    proposalOracle := .ok { action := some "BUY", quantity := some 10,
                            reasoning := some "converging evidence",
                            confidence_score := some 85 },
    review := { account := .ok { buying_power := 10000 }, positions := .ok [],
                recentTrades := .ok (),
                oracle := .ok { decision := some "APPROVE", reasoning := some "ok",
                                adjusted_quantity := none, position_to_sell := none,
                                sell_quantity := none } },
    exec := { account := .ok { buying_power := 10000 }, positions := .ok [],
              rebalanceEval := none, sellOrder := .ok { id := "s1", price := 100 },
              mainOrder := .ok { id := "o1", price := 100 } } }

/-- An engine configuration with two tickers, open market and fully
successful pipelines; the advisory lock is unavailable for the whole
polling window. -/
def twoTickerCfg : SystemEnv :=
  { tickers := ["AAPL", "MSFT"], marketOpen := true,
    updateFetch := fun _ => .ok 100,
    tickerEnv := fun _ => happyTickerEnv,
    lockPolls := [false, false, false] }

/-- The same configuration with a single ticker. -/
def oneTickerCfg : SystemEnv := { twoTickerCfg with tickers := ["AAPL"] }

/-- The single-ticker configuration with the advisory lock free. -/
def oneTickerLockFreeCfg : SystemEnv := { oneTickerCfg with lockPolls := [true] }

/-! Claim C9: lock released on every exit path -/

/-- Claim C9: for every use of GlobalPromptLock.acquire, the lock is
released exactly on the paths where it was acquired (normal completion
and body exceptions alike; after a timeout it was never held), a release
failure is logged instead of replacing the outcome, and the connection is
closed whenever it was opened. -/
theorem lock_released_on_all_paths {α : Type} (env : AcquireEnv α) (b : Bool) :
    (acquireLock env).unlockAttempted = (exceptOkB env.connect && waitForLock env.polls) ∧
    (acquireLock env).bodyRan = (exceptOkB env.connect && waitForLock env.polls) ∧
    (acquireLock env).connClosed = exceptOkB env.connect ∧
    (acquireLock env).releaseWarnLogged =
      (exceptOkB env.connect && waitForLock env.polls && !env.releaseOk) ∧
    (acquireLock { env with releaseOk := b }).outcome = (acquireLock env).outcome ∧
    (acquireLock { env with releaseOk := b }).connClosed = (acquireLock env).connClosed := by
  obtain ⟨conn, polls, body, rel⟩ := env
  cases conn with
  | error e => simp [acquireLock, exceptOkB]
  | ok u =>
      by_cases h : waitForLock polls = true
      · cases body <;> simp [acquireLock, exceptOkB, h]
      · simp at h
        cases body <;> simp [acquireLock, exceptOkB, h]

/-! Claim C4: the daily-cap critical section and the advisory lock -/

/-- Counterexample to claim C4: with the advisory lock unavailable for
the entire polling window (every pg_try_advisory_lock attempt fails, so
acquire could only time out), the engine still runs the daily-cap check
and the full cycle and executes a trade, and its behavior is identical to
the run where the lock is free: main.py never consults the lock around
should_run_trading_cycle and run_cycle. -/
theorem engine_trades_without_lock_counterexample :
    waitForLock oneTickerCfg.lockPolls = false ∧
    (runIteration oneTickerCfg DB.empty 0).executedTrades.length = 1 ∧
    runIteration oneTickerCfg DB.empty 0 = runIteration oneTickerLockFreeCfg DB.empty 0 := by
  refine ⟨by decide, by decide, by decide⟩

/-- Claim C4 as amended: GlobalPromptLock.acquire never runs its protected
block when lock acquisition times out (it raises instead, so the block is
never run unprotected), but the engine does not place the daily-cap check
and cycle under this lock: runIteration is independent of the advisory
lock state. -/
theorem lock_timeout_aborts_engine_unlocked {α : Type} (env : AcquireEnv α)
    (h : waitForLock env.polls = false)
    (senv : SystemEnv) (db : DB) (today : Nat) (polls : List Bool) :
    (acquireLock env).bodyRan = false ∧
    runIteration { senv with lockPolls := polls } db today = runIteration senv db today := by
  constructor
  · cases hc : env.connect <;> simp [acquireLock, hc, h]
  · rfl

/-- Witness for the amended C4 theorem at a concrete environment. -/
theorem lock_timeout_aborts_engine_unlocked_witness :
    (acquireLock { connect := .ok (), polls := [false, false],
                   body := .ok (42 : Nat), releaseOk := true }).bodyRan = false ∧
    runIteration { oneTickerCfg with lockPolls := [true] } DB.empty 0 =
      runIteration oneTickerCfg DB.empty 0 :=
  lock_timeout_aborts_engine_unlocked
    { connect := .ok (), polls := [false, false], body := .ok (42 : Nat), releaseOk := true }
    (by decide) oneTickerCfg DB.empty 0 [true]

/-! Claim C3: screening oracle failure and the audit trail -/

/-- A screening environment whose oracle call raises. -/
def screenFailEnv : ScreenEnv :=
  { fetchSnapshot := .ok 100, oracle := .error "LLM timeout" }

/-- Counterexample to claim C3: when the screening oracle errors, the
result is degraded to is_interesting false, but no AnalysisEvent is
persisted at all — the except branch of analyze_ticker returns without
writing to the ledger, so the claimed unconditional persistence fails. -/
theorem screening_event_unpersisted_counterexample :
    (analyze_ticker screenFailEnv "AAPL" DB.empty).1.analysis.is_interesting = some false ∧
    (analyze_ticker screenFailEnv "AAPL" DB.empty).1.event_id = none ∧
    ((analyze_ticker screenFailEnv "AAPL" DB.empty).2).analysisEvents.length = 0 := by
  refine ⟨by decide, by decide, by decide⟩

/-- Claim C3 as amended: if the screening oracle call errors, the stage
returns is_interesting false with the error text as reasoning, but no
AnalysisEvent is persisted (event_id is None and the events table is
unchanged); an AnalysisEvent is persisted only on oracle success. -/
theorem screening_failure_no_event (env : ScreenEnv) (tk : String) (db : DB)
    (e : String) (hor : env.oracle = .error e) :
    (analyze_ticker env tk db).1.analysis.is_interesting = some false ∧
    (analyze_ticker env tk db).1.event_id = none ∧
    ((analyze_ticker env tk db).2).analysisEvents = db.analysisEvents := by
  unfold analyze_ticker
  cases hs : get_latest_snapshot db tk with
  | some pr => simp [hor]
  | none =>
      cases hf : env.fetchSnapshot with
      | error e2 => simp
      | ok price => simp [hor, save_stock_snapshot]

/-- Witness for the amended C3 theorem at a concrete input. -/
theorem screening_failure_no_event_witness :
    (analyze_ticker screenFailEnv "MSFT" DB.empty).1.analysis.is_interesting = some false ∧
    (analyze_ticker screenFailEnv "MSFT" DB.empty).1.event_id = none ∧
    ((analyze_ticker screenFailEnv "MSFT" DB.empty).2).analysisEvents = DB.empty.analysisEvents :=
  screening_failure_no_event screenFailEnv "MSFT" DB.empty "LLM timeout" rfl

/-! Claim C7: debate stage failure handling -/

/-- A debate environment where both argument calls succeed and only the
consensus call raises. -/
def consensusFailEnv : DebateEnv :=
  { bull := .ok "bull case", bear := .ok "bear case",
    consensus := .error "consensus unavailable" }

/-- Counterexample to claim C7: with both argument calls successful and
only the consensus call failing, conduct_debate re-raises and persists
nothing — the transcript is not stored with an empty consensus as the
claim states. -/
theorem debate_consensus_tolerance_counterexample :
    (conduct_debate consensusFailEnv "AAPL" 1 DB.empty).1.toOption = none ∧
    ((conduct_debate consensusFailEnv "AAPL" 1 DB.empty).2).debates.length = 0 := by
  refine ⟨by decide, by decide⟩

/-- Claim C7 as amended: if any of the three oracle calls of the debate
stage (bull argument, bear argument, or consensus) fails, the whole stage
fails: no transcript is persisted and the error is re-raised. -/
theorem debate_call_failure_aborts (env : DebateEnv) (tk : String) (eid : Nat)
    (db : DB)
    (h : (∃ e, env.bull = .error e) ∨ (∃ e, env.bear = .error e) ∨
         (∃ e, env.consensus = .error e)) :
    (conduct_debate env tk eid db).1.toOption = none ∧
    (conduct_debate env tk eid db).2 = db := by
  unfold conduct_debate
  cases hb : env.bull with
  | error e => simp [Except.toOption]
  | ok bull =>
      cases hr : env.bear with
      | error e => simp [Except.toOption]
      | ok bear =>
          cases hc : env.consensus with
          | error e => simp [Except.toOption]
          | ok cons =>
              rcases h with ⟨e, he⟩ | ⟨e, he⟩ | ⟨e, he⟩ <;> simp_all

/-- Witness for the amended C7 theorem at a concrete input. -/
theorem debate_call_failure_aborts_witness :
    (conduct_debate consensusFailEnv "MSFT" 2 DB.empty).1.toOption = none ∧
    (conduct_debate consensusFailEnv "MSFT" 2 DB.empty).2 = DB.empty :=
  debate_call_failure_aborts consensusFailEnv "MSFT" 2 DB.empty
    (Or.inr (Or.inr ⟨"consensus unavailable", rfl⟩))

/-! Claim C5: proposal-stage confidence floor -/

/-- Claim C5: in the proposal stage, an oracle output with action BUY or
SELL and confidence below 70 yields a persisted proposal with action
forced to HOLD, quantity forced to 0, the rejection annotation appended
to the reasoning, and status PENDING — applied unconditionally in code. -/
theorem proposal_floor_forces_hold (out : ProposalOracleOut) (tk : String)
    (price : Option ℚ) (eid : Nat) (did : Option Nat)
    (hact : out.action = some "BUY" ∨ out.action = some "SELL")
    (hconf : out.confidence_score.getD 0 < 70) :
    (buildProposal tk (applyConfidenceFloor out) price eid did).action = "HOLD" ∧
    (buildProposal tk (applyConfidenceFloor out) price eid did).quantity = 0 ∧
    (buildProposal tk (applyConfidenceFloor out) price eid did).reasoning =
      out.reasoning.getD "" ++ rejectNoteTrading (out.confidence_score.getD 0) ∧
    (buildProposal tk (applyConfidenceFloor out) price eid did).status = "PENDING" := by
  unfold buildProposal applyConfidenceFloor
  rcases hact with h | h <;> simp [h, hconf]

/-- Witness for the C5 theorem at a concrete oracle output. -/
theorem proposal_floor_forces_hold_witness :
    (buildProposal "AAPL"
        (applyConfidenceFloor { action := some "BUY", quantity := some 10,
                                reasoning := some "weak", confidence_score := some 50 })
        (some 100) 1 (some 1)).action = "HOLD" ∧
    (buildProposal "AAPL"
        (applyConfidenceFloor { action := some "BUY", quantity := some 10,
                                reasoning := some "weak", confidence_score := some 50 })
        (some 100) 1 (some 1)).quantity = 0 ∧
    (buildProposal "AAPL"
        (applyConfidenceFloor { action := some "BUY", quantity := some 10,
                                reasoning := some "weak", confidence_score := some 50 })
        (some 100) 1 (some 1)).reasoning =
      (some "weak").getD "" ++ rejectNoteTrading ((some (50 : Int)).getD 0) ∧
    (buildProposal "AAPL"
        (applyConfidenceFloor { action := some "BUY", quantity := some 10,
                                reasoning := some "weak", confidence_score := some 50 })
        (some 100) 1 (some 1)).status = "PENDING" :=
  proposal_floor_forces_hold
    { action := some "BUY", quantity := some 10,
      reasoning := some "weak", confidence_score := some 50 }
    "AAPL" (some 100) 1 (some 1) (Or.inl rfl) (by decide)

/-! Claim C10: the risk gate is total and fail-closed -/

/-- Claim C10: review_proposal is total and fail-closed: whenever any
internal step (broker account fetch, position fetch, ledger read of
recent trades, or the oracle call together with its JSON parse) raises,
the function returns a decision with verdict REJECT instead of
propagating the exception. -/
theorem review_total_fail_closed (env : ReviewEnv) (p : TradeProposal)
    (h : (∃ e, env.account = .error e) ∨ (∃ e, env.positions = .error e) ∨
         (∃ e, env.recentTrades = .error e) ∨ (∃ e, env.oracle = .error e)) :
    (review_proposal env p).decision = some "REJECT" := by
  unfold review_proposal
  cases hacc : env.account with
  | error e => simp [reviewFailure]
  | ok a =>
      cases hpos : env.positions with
      | error e => simp [reviewFailure]
      | ok ps =>
          cases htr : env.recentTrades with
          | error e => simp [reviewFailure]
          | ok u =>
              cases hor : env.oracle with
              | error e => simp [reviewFailure]
              | ok d => rcases h with ⟨e, he⟩ | ⟨e, he⟩ | ⟨e, he⟩ | ⟨e, he⟩ <;> simp_all

/-- A review environment whose oracle call raises. -/
def reviewFailEnv : ReviewEnv :=
  { account := .ok { buying_power := 10000 }, positions := .ok [],
    recentTrades := .ok (), oracle := .error "malformed JSON" }

/-- A sample PENDING proposal used by concrete witnesses. -/
def samplePendingProposal : TradeProposal :=
  { id := 1, ticker := "AAPL", action := "BUY", quantity := 10,
    proposedPrice := some 100, reasoning := "sample",
    confidenceScore := some 80, analysisEventId := some 1,
    debateId := some 1, status := "PENDING" }

/-- Witness for the C10 theorem at a concrete failing review. -/
theorem review_total_fail_closed_witness :
    (review_proposal reviewFailEnv samplePendingProposal).decision = some "REJECT" :=
  review_total_fail_closed reviewFailEnv samplePendingProposal
    (Or.inr (Or.inr (Or.inr ⟨"malformed JSON", rfl⟩)))

/-! Claim C2: no EXECUTED status below confidence 70 -/

/-- The risk gate never answers APPROVE for a proposal with confidence
below 70, whatever the oracle says: every error branch answers REJECT and
the success branch re-asserts the floor. -/
theorem review_low_conf_not_approve (env : ReviewEnv) (p : TradeProposal)
    (hconf : p.confidenceScore.getD 0 < 70) :
    (review_proposal env p).decision ≠ some "APPROVE" := by
  unfold review_proposal
  cases hacc : env.account with
  | error e => simp [reviewFailure]
  | ok a =>
      cases hpos : env.positions with
      | error e => simp [reviewFailure]
      | ok ps =>
          cases htr : env.recentTrades with
          | error e => simp [reviewFailure]
          | ok u =>
              cases hor : env.oracle with
              | error e => simp [reviewFailure]
              | ok d =>
                  by_cases happ : d.decision = some "APPROVE"
                  · simp [hconf, happ]
                  · simp [hconf, happ]

/-- Claim C2: a proposal whose confidence is below 70 can never reach
status EXECUTED through the review → should_execute → execute tail of the
workflow, regardless of the risk-gate oracle verdict: the floor is
re-asserted at the gate, so the execute edge is never taken. -/
theorem executed_implies_confidence_floor (renv : ReviewEnv) (eenv : ExecEnv)
    (st : TradingState) (db : DB) (today : Nat) (p : TradeProposal)
    (hp : st.tradeProposal = some p)
    (hconf : p.confidenceScore.getD 0 < 70)
    (hdb : statusOf db p.id ≠ some "EXECUTED") :
    statusOf (reviewAndExecute renv eenv st db today).2 p.id ≠ some "EXECUTED" := by
  have hna := review_low_conf_not_approve renv p hconf
  unfold reviewAndExecute reviewNode
  rw [hp]
  simp only [shouldExecute, Option.some_bind]
  simp only [if_neg hna]
  exact hdb

/-- A review environment whose oracle approves unconditionally. -/
def approveReviewEnv : ReviewEnv :=
  { account := .ok { buying_power := 10000 }, positions := .ok [],
    recentTrades := .ok (),
    oracle := .ok { decision := some "APPROVE", reasoning := some "yes",
                    adjusted_quantity := none, position_to_sell := none,
                    sell_quantity := none } }

/-- A PENDING proposal with confidence 65. -/
def lowConfProposal : TradeProposal :=
  { id := 1, ticker := "AAPL", action := "BUY", quantity := 10,
    proposedPrice := some 100, reasoning := "thin evidence",
    confidenceScore := some 65, analysisEventId := some 1,
    debateId := some 1, status := "PENDING" }

/-- The workflow state entering review with the confidence-65 proposal. -/
def lowConfState : TradingState :=
  { initialState "AAPL" with tradeProposal := some lowConfProposal }

/-- The ledger holding the confidence-65 proposal as PENDING. -/
def lowConfDB : DB := { DB.empty with trade_proposals := [lowConfProposal] }

/-- Witness for the C2 theorem: confidence 65, an always-approving oracle,
and a broker that acknowledges everything still never yield EXECUTED. -/
theorem executed_implies_confidence_floor_witness :
    statusOf (reviewAndExecute approveReviewEnv happyTickerEnv.exec
        lowConfState lowConfDB 0).2 1 ≠ some "EXECUTED" :=
  executed_implies_confidence_floor approveReviewEnv happyTickerEnv.exec
    lowConfState lowConfDB 0 lowConfProposal rfl (by decide) (by decide)

/-! Claim C6: rebalance disagreement aborts the execution -/

/-- Claim C6: for an approved BUY proposal flagged with position_to_sell X
that still needs buying power and whose flagged position still exists, if
the rebalancing confirmation recommends a different ticker Y, then
execute_trade submits no order, creates no ExecutedTrade, and marks the
proposal REJECTED: the resulting ledger is exactly the input ledger with
the status update and nothing else. -/
theorem rebalance_disagreement_rejects (env : ExecEnv) (p : TradeProposal)
    (d : Decision) (db : DB) (today : Nat) (acct : Account)
    (positions : List Position) (rec : RebalanceRec)
    (hd : d.decision = some "APPROVE")
    (hpts : truthyStr d.position_to_sell = true)
    (hsq : truthyNat d.sell_quantity = true)
    (hbuy : p.action = "BUY")
    (hacct : env.account = .ok acct)
    (hcash : execResolvePrice p db * (p.quantity : ℚ) > acct.buying_power)
    (hpos : env.positions = .ok positions)
    (hexists : positions.any (fun pos => pos.symbol = d.position_to_sell.getD "") = true)
    (hrec : env.rebalanceEval = some rec)
    (hdiff : rec.ticker ≠ d.position_to_sell.getD "") :
    execute_trade env p d db today = (none, update_proposal_status db p.id "REJECTED") := by
  unfold execute_trade
  rw [if_neg (by simp [hd])]
  rw [if_pos (by simp [hpts, hsq, hbuy])]
  rw [hacct]
  simp only []
  rw [if_pos hcash]
  rw [hpos]
  simp only []
  rw [if_neg (by simp [hexists])]
  rw [hrec]
  simp only []
  rw [if_neg hdiff]

/-- An execution environment for the disagreement scenario: buying power
19, position OLD held, confirmation recommends OTHER instead of OLD. -/
def disagreeExecEnv : ExecEnv :=
  { account := .ok { buying_power := 19 },
    positions := .ok [{ symbol := "OLD", qty := 5, current_price := 100 }],
    rebalanceEval := some { ticker := "OTHER", quantity := 3, reasoning := "changed mind" },
    sellOrder := .ok { id := "s1", price := 100 },
    mainOrder := .ok { id := "o1", price := 100 } }

/-- The approved decision flagging OLD as the position to sell. -/
def sellOldDecision : Decision :=
  { decision := some "APPROVE", reasoning := some "fund by selling OLD",
    adjusted_quantity := none, position_to_sell := some "OLD",
    sell_quantity := some 5 }

/-- Witness for the C6 theorem at the concrete disagreement scenario. -/
theorem rebalance_disagreement_rejects_witness :
    execute_trade disagreeExecEnv samplePendingProposal sellOldDecision
      lowConfDB 0 =
    (none, update_proposal_status lowConfDB samplePendingProposal.id "REJECTED") :=
  rebalance_disagreement_rejects disagreeExecEnv samplePendingProposal
    sellOldDecision lowConfDB 0 { buying_power := 19 }
    [{ symbol := "OLD", qty := 5, current_price := 100 }]
    { ticker := "OTHER", quantity := 3, reasoning := "changed mind" }
    rfl (by decide) (by decide) rfl rfl
    (by norm_num [execResolvePrice, samplePendingProposal])
    rfl (by decide) rfl (by decide)

/-! Claim C8: submission failure handling -/

/-- Updating the status of a row that is present makes statusOf report
the new status. -/
theorem find_map_setStatus (l : List TradeProposal) (pid : Nat) (s : String)
    (h : (l.find? (fun p => p.id = pid)).isSome = true) :
    (((l.map (fun p => if p.id = pid then { p with status := s } else p)).find?
        (fun p => p.id = pid)).map (·.status)) = some s := by
  induction l with
  | nil => simp at h
  | cons a l ih =>
      by_cases ha : a.id = pid
      · simp [List.find?_cons, ha]
      · simp only [List.map_cons, if_neg ha]
        rw [List.find?_cons_of_neg _ (by simp [ha])]
        rw [List.find?_cons_of_neg _ (by simp [ha])] at h
        exact ih h

/-- statusOf after update_proposal_status on a present row. -/
theorem statusOf_update_of_present (db : DB) (pid : Nat) (s : String)
    (h : (statusOf db pid).isSome = true) :
    statusOf (update_proposal_status db pid s) pid = some s := by
  unfold statusOf update_proposal_status
  exact find_map_setStatus db.trade_proposals pid s (by
    unfold statusOf at h
    simpa using h)

/-- The main-trade tail either fails (returns None and marks REJECTED) or
succeeds (returns the trade and marks EXECUTED). -/
theorem executeMainTrade_status (env : ExecEnv) (p : TradeProposal) (d : Decision)
    (db : DB) (today : Nat) (h : (statusOf db p.id).isSome = true) :
    ((executeMainTrade env p d db today).1 = none ∧
     statusOf (executeMainTrade env p d db today).2 p.id = some "REJECTED") ∨
    ((executeMainTrade env p d db today).1 ≠ none ∧
     statusOf (executeMainTrade env p d db today).2 p.id = some "EXECUTED") := by
  unfold executeMainTrade
  cases ho : env.mainOrder with
  | error e =>
      left
      exact ⟨rfl, statusOf_update_of_present _ p.id "REJECTED" h⟩
  | ok o =>
      right
      refine ⟨by simp, ?_⟩
      exact statusOf_update_of_present _ p.id "EXECUTED" h

/-- Claim C8 as amended: execute_trade never leaves a proposal PENDING:
the proposal row always ends REJECTED or EXECUTED, and the call returns
None exactly when the proposal was rejected (on submission failure the
error is logged and swallowed, not returned — see the counterexample). -/
theorem execution_failure_rejects_never_pending (env : ExecEnv)
    (p : TradeProposal) (d : Decision) (db : DB) (today : Nat)
    (h : (statusOf db p.id).isSome = true) :
    (statusOf (execute_trade env p d db today).2 p.id = some "REJECTED" ∨
     statusOf (execute_trade env p d db today).2 p.id = some "EXECUTED") ∧
    ((execute_trade env p d db today).1 = none ↔
     statusOf (execute_trade env p d db today).2 p.id = some "REJECTED") := by
  unfold execute_trade
  repeat' split
  all_goals
    first
      | (have hs := statusOf_update_of_present db p.id "REJECTED" h
         simp [hs]
         done)
      | (have hs := statusOf_update_of_present (submitSellCall db d) p.id "REJECTED" h
         simp [hs]
         done)
      | (rcases executeMainTrade_status env p d db today h with
           ⟨h1, h2⟩ | ⟨h1, h2⟩ <;> simp [h1, h2]
         done)
      | (rcases executeMainTrade_status env p d (submitSellCall db d) today h with
           ⟨h1, h2⟩ | ⟨h1, h2⟩ <;> simp [h1, h2]
         done)

/-- The approving decision without rebalancing flags. -/
def approveDecision : Decision :=
  { decision := some "APPROVE", reasoning := some "ok",
    adjusted_quantity := none, position_to_sell := none, sell_quantity := none }

/-- A ledger holding only the sample PENDING proposal. -/
def sampleDB : DB := { DB.empty with trade_proposals := [samplePendingProposal] }

/-- An execution environment whose primary order submission raises. -/
def failSubmitExecEnv : ExecEnv :=
  { account := .ok { buying_power := 10000 }, positions := .ok [],
    rebalanceEval := none, sellOrder := .ok { id := "s1", price := 100 },
    mainOrder := .error "order rejected by broker" }

/-- The workflow state entering execution with the approved sample
proposal. -/
def approvedState : TradingState :=
  { initialState "AAPL" with
    tradeProposal := some samplePendingProposal,
    portfolioDecision := some approveDecision }

/-- Counterexample to claim C8: when the order submission fails, the
proposal is marked REJECTED, but no error is returned to the caller: the
graph node ends with error none (the exception is caught and logged
inside execute_trade, which returns None, indistinguishable from an
ordinary rejection). -/
theorem execution_error_not_surfaced_counterexample :
    (executeNode failSubmitExecEnv approvedState sampleDB 0).1.error = none ∧
    (executeNode failSubmitExecEnv approvedState sampleDB 0).1.executedTrade = none ∧
    statusOf (executeNode failSubmitExecEnv approvedState sampleDB 0).2 1 =
      some "REJECTED" := by
  refine ⟨by decide, by decide, by decide⟩

/-- Witness for the amended C8 theorem at the failing submission. -/
theorem execution_failure_rejects_never_pending_witness :
    (statusOf (execute_trade failSubmitExecEnv samplePendingProposal
        approveDecision sampleDB 0).2 samplePendingProposal.id = some "REJECTED" ∨
     statusOf (execute_trade failSubmitExecEnv samplePendingProposal
        approveDecision sampleDB 0).2 samplePendingProposal.id = some "EXECUTED") ∧
    ((execute_trade failSubmitExecEnv samplePendingProposal
        approveDecision sampleDB 0).1 = none ↔
     statusOf (execute_trade failSubmitExecEnv samplePendingProposal
        approveDecision sampleDB 0).2 samplePendingProposal.id = some "REJECTED") :=
  execution_failure_rejects_never_pending failSubmitExecEnv samplePendingProposal
    approveDecision sampleDB 0 (by decide)

/-! Claim C1: the daily trading cap -/

/-- The screening stage never writes executed_trades. -/
theorem analyze_ticker_trades (env : ScreenEnv) (tk : String) (db : DB) :
    ((analyze_ticker env tk db).2).executedTrades = db.executedTrades := by
  cases hs : get_latest_snapshot db tk <;>
  cases hf : env.fetchSnapshot <;>
  cases ho : env.oracle <;>
  simp [analyze_ticker, hs, hf, ho, save_stock_snapshot, save_analysis_event]

/-- The debate stage never writes executed_trades. -/
theorem conduct_debate_trades (env : DebateEnv) (tk : String) (eid : Nat) (db : DB) :
    ((conduct_debate env tk eid db).2).executedTrades = db.executedTrades := by
  cases hb : env.bull <;> cases hr : env.bear <;> cases hc : env.consensus <;>
  simp [conduct_debate, hb, hr, hc, save_debate]

/-- The analyze node never writes executed_trades. -/
theorem analyzeNode_trades (env : ScreenEnv) (st : TradingState) (db : DB) :
    ((analyzeNode env st db).2).executedTrades = db.executedTrades := by
  unfold analyzeNode
  cases ht : st.ticker with
  | none => rfl
  | some tk =>
      by_cases he : tk.isEmpty <;> simp [he, analyze_ticker_trades]

/-- The debate node never writes executed_trades. -/
theorem conductDebateNode_trades (env : DebateEnv) (st : TradingState) (db : DB) :
    ((conductDebateNode env st db).2).executedTrades = db.executedTrades := by
  unfold conductDebateNode
  cases hb : st.analysisResult.bind (fun r => r.event_id) with
  | none => rfl
  | some eid =>
      have h := conduct_debate_trades env (st.ticker.getD "") eid db
      cases hr : (conduct_debate env (st.ticker.getD "") eid db).1 with
      | error e => simpa [hr] using h
      | ok d =>
          by_cases hid : d.id = 0 <;> simp [hr, hid] <;> exact h

/-- The proposal node never writes executed_trades. -/
theorem createProposalNode_trades (envFetch : Except String ℚ)
    (envOracle : Except String ProposalOracleOut) (st : TradingState) (db : DB) :
    ((createProposalNode envFetch envOracle st db).2).executedTrades =
      db.executedTrades := by
  unfold createProposalNode
  cases he : st.analysisResult.bind (fun r => r.event_id) with
  | none => rfl
  | some eid =>
      cases hd : st.debateResult with
      | none => rfl
      | some dres =>
          cases hs : get_latest_snapshot db (st.ticker.getD "") <;>
          cases hf : envFetch <;>
          cases ho : envOracle <;>
          simp [hs, hf, ho, save_stock_snapshot, save_trade_proposal]

/-- The review node never writes the ledger at all. -/
theorem reviewNode_trades (env : ReviewEnv) (st : TradingState) (db : DB) :
    ((reviewNode env st db).2).executedTrades = db.executedTrades := by
  unfold reviewNode
  cases st.tradeProposal <;> rfl

/-- The main-trade tail adds at most one executed trade. -/
theorem executeMainTrade_trades_le (env : ExecEnv) (p : TradeProposal)
    (d : Decision) (db : DB) (today : Nat) :
    ((executeMainTrade env p d db today).2).executedTrades.length ≤
      db.executedTrades.length + 1 := by
  unfold executeMainTrade
  cases ho : env.mainOrder <;>
  simp [update_proposal_status, save_executed_trade]

/-- execute_trade adds at most one executed trade. -/
theorem execute_trade_trades_le (env : ExecEnv) (p : TradeProposal)
    (d : Decision) (db : DB) (today : Nat) :
    ((execute_trade env p d db today).2).executedTrades.length ≤
      db.executedTrades.length + 1 := by
  unfold execute_trade
  repeat' split
  all_goals
    first
      | (exact executeMainTrade_trades_le env p d db today)
      | (exact executeMainTrade_trades_le env p d (submitSellCall db d) today)
      | (simp [update_proposal_status, submitSellCall])

/-- The execute node adds at most one executed trade. -/
theorem executeNode_trades_le (env : ExecEnv) (st : TradingState) (db : DB)
    (today : Nat) :
    ((executeNode env st db today).2).executedTrades.length ≤
      db.executedTrades.length + 1 := by
  unfold executeNode
  cases hp : st.tradeProposal with
  | none => simp
  | some p =>
      cases hd : st.portfolioDecision with
      | none => simp
      | some d =>
          have h := execute_trade_trades_le env p d db today
          cases hr : (execute_trade env p d db today).1 <;> simpa [hr] using h

/-- The review → execute tail adds at most one executed trade. -/
theorem reviewAndExecute_trades_le (renv : ReviewEnv) (eenv : ExecEnv)
    (st : TradingState) (db : DB) (today : Nat) :
    ((reviewAndExecute renv eenv st db today).2).executedTrades.length ≤
      db.executedTrades.length + 1 := by
  simp only [reviewAndExecute]
  have hrev := congrArg List.length (reviewNode_trades renv st db)
  split
  · have h := executeNode_trades_le eenv (reviewNode renv st db).1
      (reviewNode renv st db).2 today
    omega
  · omega

/-- One graph run adds at most one executed trade. -/
theorem graphRun_trades_le (env : TickerEnv) (tk : String) (db : DB)
    (today : Nat) :
    ((graphRun env tk db today).2).executedTrades.length ≤
      db.executedTrades.length + 1 := by
  simp only [graphRun]
  have h1 := congrArg List.length (analyzeNode_trades env.screen (initialState tk) db)
  split
  · omega
  · have h2 := congrArg List.length (conductDebateNode_trades env.debate
      (analyzeNode env.screen (initialState tk) db).1
      (analyzeNode env.screen (initialState tk) db).2)
    have h3 := congrArg List.length (createProposalNode_trades env.proposalFetch
      env.proposalOracle
      (conductDebateNode env.debate (analyzeNode env.screen (initialState tk) db).1
        (analyzeNode env.screen (initialState tk) db).2).1
      (conductDebateNode env.debate (analyzeNode env.screen (initialState tk) db).1
        (analyzeNode env.screen (initialState tk) db).2).2)
    have h4 := reviewAndExecute_trades_le env.review env.exec
      (createProposalNode env.proposalFetch env.proposalOracle
        (conductDebateNode env.debate (analyzeNode env.screen (initialState tk) db).1
          (analyzeNode env.screen (initialState tk) db).2).1
        (conductDebateNode env.debate (analyzeNode env.screen (initialState tk) db).1
          (analyzeNode env.screen (initialState tk) db).2).2).1
      (createProposalNode env.proposalFetch env.proposalOracle
        (conductDebateNode env.debate (analyzeNode env.screen (initialState tk) db).1
          (analyzeNode env.screen (initialState tk) db).2).1
        (conductDebateNode env.debate (analyzeNode env.screen (initialState tk) db).1
          (analyzeNode env.screen (initialState tk) db).2).2).2 today
    omega

/-- One process_ticker adds at most one executed trade. -/
theorem process_ticker_trades_le (env : SystemEnv) (tk : String) (db : DB)
    (today : Nat) :
    (process_ticker env tk db today).executedTrades.length ≤
      db.executedTrades.length + 1 :=
  graphRun_trades_le (env.tickerEnv tk) tk db today

/-- Folding process_ticker over a ticker list adds at most one executed
trade per ticker. -/
theorem foldl_process_trades_le (env : SystemEnv) (today : Nat) :
    ∀ (l : List String) (db : DB),
      ((l.foldl (fun db tk => process_ticker env tk db today) db)).executedTrades.length ≤
        db.executedTrades.length + l.length := by
  intro l
  induction l with
  | nil => intro db; simp
  | cons tk ts ih =>
      intro db
      simp only [List.foldl_cons, List.length_cons]
      have h1 := ih (process_ticker env tk db today)
      have h2 := process_ticker_trades_le env tk db today
      omega

/-- The snapshot refresh never writes executed_trades. -/
theorem foldl_update_trades (env : SystemEnv) :
    ∀ (l : List String) (db : DB),
      ((l.foldl (fun db tk =>
          match env.updateFetch tk with
          | .ok price => save_stock_snapshot db tk price
          | .error _ => db) db)).executedTrades = db.executedTrades := by
  intro l
  induction l with
  | nil => intro db; rfl
  | cons tk ts ih =>
      intro db
      simp only [List.foldl_cons]
      rw [ih]
      cases env.updateFetch tk <;> rfl

/-- update_stock_data never writes executed_trades. -/
theorem update_stock_data_trades (env : SystemEnv) (db : DB) :
    (update_stock_data env db).executedTrades = db.executedTrades :=
  foldl_update_trades env env.tickers db

/-- One cycle adds at most one executed trade per configured ticker. -/
theorem run_cycle_trades_le (env : SystemEnv) (db : DB) (today : Nat) :
    (run_cycle env db today).executedTrades.length ≤
      db.executedTrades.length + env.tickers.length := by
  unfold run_cycle
  have h1 := foldl_process_trades_le env today env.tickers (update_stock_data env db)
  rw [update_stock_data_trades] at h1
  exact h1

/-- Claim C1 as amended: a second cycle on the same day short-circuits
before executing anything (if a trade already exists today the iteration
is a no-op), but within a single gated cycle each configured ticker may
execute its own trade — there is no per-ticker re-check — so the number
of ExecutedTrade rows grows by at most the number of tickers, not by at
most one. -/
theorem daily_cap_cycle_bound (env : SystemEnv) (db : DB) (today : Nat) :
    (has_traded_today db today = true → runIteration env db today = db) ∧
    (runIteration env db today).executedTrades.length ≤
      db.executedTrades.length + env.tickers.length := by
  constructor
  · intro h
    unfold runIteration should_run_trading_cycle
    simp [h]
  · unfold runIteration
    split
    · exact run_cycle_trades_le env db today
    · simp

/-- A ledger that already holds a trade executed today (day 0). -/
def tradedTodayDB : DB :=
  { DB.empty with executedTrades :=
      [{ id := 1, tradeProposalId := 1, ticker := "AAPL", action := "BUY",
         quantity := 1, executionPrice := 100, alpacaOrderId := "o0",
         reasoning := none, status := "FILLED", executedAt := 0 }] }

/-- Witness for the amended C1 theorem: with a trade already executed
today, the next iteration is a no-op, and the bound holds. -/
theorem daily_cap_cycle_bound_witness :
    runIteration twoTickerCfg tradedTodayDB 0 = tradedTodayDB ∧
    (runIteration twoTickerCfg tradedTodayDB 0).executedTrades.length ≤
      tradedTodayDB.executedTrades.length + twoTickerCfg.tickers.length :=
  ⟨(daily_cap_cycle_bound twoTickerCfg tradedTodayDB 0).1 (by decide),
   (daily_cap_cycle_bound twoTickerCfg tradedTodayDB 0).2⟩

/-- Counterexample to claim C1: one gated cycle over two tickers, both
with fully successful pipelines, creates two ExecutedTrade rows dated the
same day — the later ticker does not short-circuit, so the daily count
exceeds 1. -/
theorem daily_cap_two_tickers_counterexample :
    ((runIteration twoTickerCfg DB.empty 0).executedTrades.filter
        (fun t => t.executedAt = 0)).length = 2 := by decide
